import Mathlib

/-!
Verification of the Context-Assembly & Streaming Q&A Engine of the
deeppurple text-analysis backend.

The definitions below are a shallow embedding of the Python source:

* `src/server/src/api/text_analysis_api.py` — the `ask_question` endpoint
  (synchronous path), the `stream_question_answer` endpoint with its inner
  `generate_stream` async generator (streaming path), the inline history
  query of both endpoints, and field usage
  of the `visualize_question` endpoint.
* `src/server/src/utils/text_analyzer.py` — `answer_question` and
  `answer_question_stream` (the Gateway adapters), including the
  `context[:10000]` truncation applied to every model call.
* `src/server/src/models/models.py` — the declared columns of the
  `Question` ORM model.

Conventions of the embedding:

* Python strings are Lean `String`s (a `String` is a list of characters,
  matching the Python character-sequence semantics for `len`, slicing and
  `split`).
* The language-model provider is abstracted as a function argument
  (`Gateway` for the one-shot completion, a `String → String →
  List HistoryItem → GenOutcome` function for the fragment stream), so the
  theorems quantify over every possible provider behavior, including
  failures.
* Database state is explicit: the persisted `questions` rows of a session
  are a chronologically ordered list of `Turn` records, and each request
  returns the rows it appended.
* A fallible Python operation is an `Except String` value whose `error`
  carries the stringified exception.
-/

/--
One persisted row of the `questions` table as the question endpoints use
it.  `question_text` and `answer_text` are declared columns of the
`Question` model in `models.py`; `chart_data` is the JSON column added to
the physical table by `models/migrate_db.py` and
`scripts/add_questions_coulmn.py` and read by the history
construction of the streaming endpoint (its value is modelled in serialized string form;
a falsy chart payload is `none` or the empty string).  Chronological
order (`created_at` ascending) is the list order of the enclosing list.
-/
structure Turn where
  question_text : String
  answer_text : Option String
  chart_data : Option String
deriving DecidableEq

/-- One conversation-history item handed to the model: a prior question
and the answer text presented for it. -/
structure HistoryItem where
  question : String
  answer : String
deriving DecidableEq

/-- A Python value in the positions where the code inspects type and
truthiness of the Gateway `sources` result (`isinstance(sources, list)`
and `if sources`).  List payloads are modelled as lists of strings. -/
inductive PyVal where
  | vlist (xs : List String)
  | vstr (s : String)
  | vint (n : Int)
  | vbool (b : Bool)
  | vnone
deriving DecidableEq

/-- Python truthiness for the modelled values. -/
def PyVal.truthy : PyVal → Bool
  | .vlist xs => !xs.isEmpty
  | .vstr s => s != ""
  | .vint n => n != 0
  | .vbool b => b
  | .vnone => false

/-- Python `isinstance(v, list)` for the modelled values. -/
def PyVal.isList : PyVal → Bool
  | .vlist _ => true
  | _ => false

/-- Python `str(v)` for the modelled non-list values (the code only
stringifies a value after establishing it is not a list). -/
def PyVal.pyStr : PyVal → String
  | .vlist _ => "[]"
  | .vstr s => s
  | .vint n => toString n
  | .vbool b => if b then "True" else "False"
  | .vnone => "None"

/-- The SQL dialects the backend runs on: `core/database.py` uses SQLite
for local development and PostgreSQL in production. -/
inductive Dialect where
  | postgres
  | sqlite
deriving DecidableEq

/--
Semantics of `query.limit(k)` over an already-ordered row list.  SQLAlchemy
passes the limit through to the database unchecked, so a negative value
reaches the engine: PostgreSQL rejects a negative LIMIT with an error,
while SQLite documents a negative LIMIT as meaning no upper bound.  A
non-negative `k` takes the first `k` rows.
-/
def sqlLimit (d : Dialect) (k : Int) (rows : List α) : Except String (List α) :=
  if k < 0 then
    match d with
    | .postgres => .error "LIMIT must not be negative"
    | .sqlite => .ok rows
  else .ok (rows.take k.toNat)

/-- The answered turns of a session in chronological order: the rows
satisfying the filter `Question.answer_text.isnot(None)`. -/
def answeredChron (turns : List Turn) : List Turn :=
  turns.filter fun t => t.answer_text.isSome

/--
The `previous_questions` query of both question endpoints
(`text_analysis_api.py`): filter to answered turns, order by
`created_at` descending (the reverse of the chronological list), and
apply `.limit(k)`.
-/
def previousQuestionsQuery (d : Dialect) (turns : List Turn) (k : Int) :
    Except String (List Turn) :=
  sqlLimit d k (answeredChron turns).reverse

/-- The turns underlying the conversation history, restored to
chronological (oldest-first) order by the `reversed(...)` comprehension. -/
def gatherTurnsChron (d : Dialect) (turns : List Turn) (k : Int) :
    Except String (List Turn) :=
  (previousQuestionsQuery d turns k).map List.reverse

/-- One history item on the synchronous path (`ask_question`):
`{"question": q.question_text, "answer": q.answer_text}`. -/
def historyItemSync (t : Turn) : HistoryItem :=
  { question := t.question_text, answer := t.answer_text.getD "" }

/-- Python falsiness of `q.chart_data` (`not q.chart_data`). -/
def chartFalsy (t : Turn) : Bool :=
  match t.chart_data with
  | none => true
  | some c => c == ""

/-- One history item on the streaming path (`stream_question_answer`):
the plain answer when `not q.chart_data`, otherwise
`f-string of q.answer_text ++ ": " ++ f-string of q.chart_data`. -/
def historyItemStream (t : Turn) : HistoryItem :=
  if chartFalsy t then
    { question := t.question_text, answer := t.answer_text.getD "" }
  else
    { question := t.question_text
      answer := (t.answer_text.getD "") ++ ": " ++ (t.chart_data.getD "") }

/-- The `conversation_history` list built by `ask_question`. -/
def conversationHistorySync (d : Dialect) (turns : List Turn) (k : Int) :
    Except String (List HistoryItem) :=
  (previousQuestionsQuery d turns k).map fun qs => qs.reverse.map historyItemSync

/-- The `conversation_history` list built by `stream_question_answer`. -/
def conversationHistoryStream (d : Dialect) (turns : List Turn) (k : Int) :
    Except String (List HistoryItem) :=
  (previousQuestionsQuery d turns k).map fun qs => qs.reverse.map historyItemStream

/-- The context size bound of `text_analyzer.py` (`context[:10000]`). -/
def contextLimit : Nat := 10000

/-- Python `context[:10000]`: the prefix-cut applied to the assembled
context before it is placed in the model prompt, in both
`answer_question` and `answer_question_stream`.  Total — slicing never
raises. -/
def truncateContext (s : String) : String :=
  ⟨s.data.take contextLimit⟩

/-- Python `s.split(c, 1)`: `none` when `c` does not occur, otherwise the
characters strictly before the first occurrence and the characters
strictly after it. -/
def splitFirst (c : Char) : List Char → Option (List Char × List Char)
  | [] => none
  | x :: xs =>
    if x = c then some ([], xs)
    else
      match splitFirst c xs with
      | none => none
      | some (a, b) => some (x :: a, b)

/-- Python `s.strip()`: whitespace removed from both ends. -/
def pyStrip (s : List Char) : List Char :=
  ((s.dropWhile Char.isWhitespace).reverse.dropWhile Char.isWhitespace).reverse

/-- The synthesized generic question of the pasted-text heuristic. -/
def genericPastedQuestion : String := "Can you analyze this text for me?"

/--
The pasted-text reclassification shared by `ask_question` (where its
guard is unreachable) and `generate_stream`: split the question on the
first `?`; when more than 50 characters follow, the part before (plus
`?`) becomes the effective question and the stripped remainder the ad-hoc
context; otherwise, or when no `?` occurs, the generic question is used
with the entire original question as context.  Returns
`(actual_question, context_from_question)`.
-/
def reclassifyPasted (q : String) : String × String :=
  match splitFirst '?' q.data with
  | some (a, b) =>
    if 50 < b.length then (String.mk a ++ "?", String.mk (pyStrip b))
    else (genericPastedQuestion, q)
  | none => (genericPastedQuestion, q)

/-- The combined document context: `"\n\n".join(file contents)`. -/
def combinedContext (fileContents : List String) : String :=
  String.intercalate "\n\n" fileContents

/-- The abstract Gateway one-shot completion
(the provider call of `text_analyzer.answer_question`): given effective
question, truncated context and history, it either returns an answer
string with a `sources` value, or raises with a detail string. -/
abbrev Gateway := String → String → List HistoryItem → Except String (String × PyVal)

/-- Defensive sources normalization of `ask_question`
(`text_analysis_api.py`, files branch): a list passes through; a truthy
non-list becomes a one-element list of its string form; a falsy non-list
becomes the empty list. -/
def normalizeSources (v : PyVal) : PyVal :=
  if v.isList then v
  else if v.truthy then .vlist [v.pyStr] else .vlist []

/-- The fallback answer of the zero-document branch of `ask_question` when the
model call raises. -/
def generalKnowledgeFallback : String :=
  "I can answer general questions or analyze uploaded files. " ++
  "For more specific analysis, you can upload a file or paste text directly in the chat. " ++
  "What would you like to know?"

/-- The head of the fallback answer of the files branch of `ask_question` when
the model call raises; the stringified exception is appended to it. -/
def errAnswerStem : String :=
  "I encountered an error processing your question about the uploaded content. Error: "

/-- The outcome of one synchronous `ask_question` request: the response
fields returned to the caller and the rows appended to the `questions`
table. -/
structure SyncRun where
  answer : String
  sources : PyVal
  conversation_history : List HistoryItem
  persisted : List Turn
deriving DecidableEq

/-- The tail of `ask_question` (its "normal processing"): invoke the
Gateway on the original question and the combined context; on success
normalize the sources, on failure synthesize the explanatory answer with
the exception detail and empty sources; in both cases persist exactly one
row carrying the original question. -/
def normalProcessing (gw : Gateway) (question context : String)
    (hist : List HistoryItem) : SyncRun :=
  match gw question (truncateContext context) hist with
  | .ok (answerText, srcs) =>
    { answer := answerText
      sources := normalizeSources srcs
      conversation_history := hist
      persisted := [⟨question, some answerText, none⟩] }
  | .error e =>
    { answer := errAnswerStem ++ e
      sources := .vlist []
      conversation_history := hist
      persisted := [⟨question, some (errAnswerStem ++ e), none⟩] }

/--
The `ask_question` endpoint (`text_analysis_api.py`) after session
authorization, with the file contents of the session and turn rows made
explicit.  Faithful control flow: the zero-document branch returns early
(answering with empty context, recovering a Gateway failure with the
fixed guidance fallback); afterwards the pasted-text block is guarded by
`not file_contents and contains_pasted_text`, a condition that can no
longer hold — on Gateway failure inside it the code falls through to
normal processing.  Every branch persists exactly one row whose
`question_text` is the original question.  The `sources` response field
of the early branch is `sources if sources else []`, without the
list-coercion applied in normal processing.
-/
def ask_question (gw : Gateway) (d : Dialect) (fileContents : List String)
    (turns : List Turn) (historyLimit : Option Int) (question : String) :
    Except String SyncRun :=
  match conversationHistorySync d turns (historyLimit.getD 5) with
  | .error e => .error e
  | .ok hist =>
    if fileContents.isEmpty then
      match gw question (truncateContext "") hist with
      | .ok (answerText, srcs) =>
        .ok { answer := answerText
              sources := if srcs.truthy then srcs else .vlist []
              conversation_history := hist
              persisted := [⟨question, some answerText, none⟩] }
      | .error _ =>
        .ok { answer := generalKnowledgeFallback
              sources := .vlist []
              conversation_history := hist
              persisted := [⟨question, some generalKnowledgeFallback, none⟩] }
    else
      let context := combinedContext fileContents
      if fileContents.isEmpty ∧ 100 < question.length then
        let rc := reclassifyPasted question
        match gw rc.1 (truncateContext rc.2) hist with
        | .ok (answerText, srcs) =>
          .ok { answer := answerText
                sources := if srcs.truthy then srcs else .vlist []
                conversation_history := hist
                persisted := [⟨question, some answerText, none⟩] }
        | .error _ => .ok (normalProcessing gw question context hist)
      else .ok (normalProcessing gw question context hist)

/-- The observable behavior of one async generator run: either it yields
a sequence of fragments and completes, or it yields a prefix of fragments
and then raises with a detail string. -/
inductive GenOutcome where
  | yields (frags : List String)
  | raises (frags : List String) (err : String)
deriving DecidableEq

/-- The fragment yielded by `text_analyzer.answer_question_stream` when
its provider stream raises. -/
def innerStreamFallback : String :=
  "I couldn\x27t process your question due to a technical error. Please try again later."

/--
`text_analyzer.answer_question_stream`: forwards the provider fragment
stream over the truncated context; its `except Exception` catches a
provider failure after any prefix of fragments, yields the fixed fallback
fragment instead, and then completes normally — so the generator it
exposes never raises.
-/
def answer_question_stream
    (gwStream : String → String → List HistoryItem → GenOutcome)
    (question context : String) (hist : List HistoryItem) : GenOutcome :=
  match gwStream question (truncateContext context) hist with
  | .yields fs => .yields fs
  | .raises fs _ => .yields (fs ++ [innerStreamFallback])

/--
The fragment loop of `generate_stream` around one inner generator:
each yielded token is forwarded to the caller and appended to
`complete_answer`; if the inner generator raises, the branch's error
message is yielded and `complete_answer` is assigned (replaced, not
appended) to that message.  Returns
`(fragments yielded to the caller, final complete_answer)`.
-/
def outerConsume (inner : GenOutcome) (mkErr : String → String) :
    List String × String :=
  match inner with
  | .yields fs => (fs, String.join fs)
  | .raises fs e => (fs ++ [mkErr e], mkErr e)

/-- The `(actual question, context)` pair `generate_stream` passes to
`answer_question_stream`, per its three branches: pasted-text
reclassification on a zero-document session with a long question,
empty context on a zero-document session otherwise, and the combined
file context when documents exist. -/
def effectiveCall (fileContents : List String) (question : String) :
    String × String :=
  if fileContents.isEmpty ∧ 100 < question.length then
    reclassifyPasted question
  else if fileContents.isEmpty then (question, "")
  else (question, combinedContext fileContents)

/-- The per-branch error message `generate_stream` substitutes if the
inner generator raises. -/
def branchErrMsg (fileContents : List String) (question : String) :
    String → String :=
  if fileContents.isEmpty ∧ 100 < question.length then
    fun _ => "I\x27m having trouble analyzing your text. Please try again."
  else if fileContents.isEmpty then
    fun _ => "I\x27m having trouble processing your question. Please try again."
  else fun e => "Error: " ++ e

/-- The outcome of one `generate_stream` run: the fragments delivered to
the caller, the final accumulator, the result of the single
persistence attempt (rows appended), and whether anything was re-raised into the
response stream. -/
structure StreamRun where
  yielded : List String
  acc : String
  persistAttempts : Nat
  persisted : List Turn
  raisedToCaller : Bool
deriving DecidableEq

/--
The `generate_stream` async generator of the `/analysis/question/stream`
endpoint: pick the branch, run the fragment loop over
`answer_question_stream`, then attempt exactly one `db.add`/`db.commit`
of a row carrying the original question and the accumulated answer,
inside try/except — a commit failure (`commitOk = false`) is logged only
and nothing is raised into the already-delivered stream.
-/
def generate_stream (gwStream : String → String → List HistoryItem → GenOutcome)
    (fileContents : List String) (hist : List HistoryItem) (question : String)
    (commitOk : Bool) : StreamRun :=
  let eff := effectiveCall fileContents question
  let inner := answer_question_stream gwStream eff.1 eff.2 hist
  let out := outerConsume inner (branchErrMsg fileContents question)
  { yielded := out.1
    acc := out.2
    persistAttempts := 1
    persisted := if commitOk then [⟨question, some out.2, none⟩] else []
    raisedToCaller := false }

/-- The column attributes declared on the `Question` ORM model
(`models.py`, class `Question`). -/
def questionDeclaredFields : List String :=
  ["id", "session_id", "question_text", "answer_text", "created_at", "answered_at"]

/-- The attributes of each prior answered turn read by the history
comprehension of the streaming endpoint (`text_analysis_api.py`). -/
def streamHistoryFieldsRead : List String :=
  ["question_text", "answer_text", "chart_data"]

/-- The keyword arguments passed to the `Question` constructor by the
`visualize_question` endpoint (`text_analysis_api.py`). -/
def visualizeFieldsWritten : List String :=
  ["session_id", "question_text", "answer_text", "chart_data", "chart_type"]

/-- A provider whose fragment stream fails after two fragments. -/
def gwStreamFail : String → String → List HistoryItem → GenOutcome :=
  fun _ _ _ => .raises ["He", "llo "] "boom"

/-- A provider whose fragment stream completes normally. -/
def gwStreamOk : String → String → List HistoryItem → GenOutcome :=
  fun _ _ _ => .yields ["To", "ken"]

/-- A Gateway whose `complete` always raises with detail `boom`. -/
def gwBoom : Gateway := fun _ _ _ => .error "boom"

/-- A Gateway whose `complete` returns a truthy non-list `sources`. -/
def gwScalar : Gateway := fun _ _ _ => .ok ("ans", .vstr "src")

/-- A Gateway whose `complete` returns an integer `sources` value. -/
def gwIntSources : Gateway := fun _ _ _ => .ok ("ans", .vint 7)

/-- A Gateway that echoes the question and context it received, making
the arguments of the model call observable in the response. -/
def gwEcho : Gateway := fun q c _ => .ok ("Q=" ++ q ++ ";C=" ++ c, .vlist [])

/-- A question of 139 characters containing a `?` followed by more than
50 characters: the pasted-text reclassification precondition. -/
def qBig : String :=
  "Is this a long question? The remainder of this message is pasted content that continues for quite a while to exceed both thresholds easily."

/-- An answered turn carrying a chart payload. -/
def tChart : Turn := ⟨"Q", some "A", some "[1, 2]"⟩

/-- An answered turn. -/
def tAns1 : Turn := ⟨"q1", some "a1", none⟩

/-- An unanswered turn. -/
def tUnans : Turn := ⟨"q2", none, none⟩

/-- Another answered turn. -/
def tAns2 : Turn := ⟨"q3", some "a3", none⟩

/-- A context below the truncation limit. -/
def shortCtx : String := "abc"

/-- A context one character above the truncation limit. -/
def longCtx : String := ⟨List.replicate 10001 'a'⟩

/-- Decidable equality of `Except` values, for evaluating concrete runs. -/
def exceptDecEq {ε α : Type} [DecidableEq ε] [DecidableEq α] :
    DecidableEq (Except ε α) := fun a b =>
  match a, b with
  | .ok x, .ok y =>
    if h : x = y then .isTrue (by rw [h])
    else .isFalse (by intro hc; cases hc; exact h rfl)
  | .error x, .error y =>
    if h : x = y then .isTrue (by rw [h])
    else .isFalse (by intro hc; cases hc; exact h rfl)
  | .ok _, .error _ => .isFalse (by intro hc; cases hc)
  | .error _, .ok _ => .isFalse (by intro hc; cases hc)

instance {ε α : Type} [DecidableEq ε] [DecidableEq α] :
    DecidableEq (Except ε α) := exceptDecEq

/-- With a non-negative limit the history query cannot fail, on either
dialect: it returns the most recent answered turns, restored to
chronological order and mapped to items. -/
theorem conversationHistorySync_ok (d : Dialect) (turns : List Turn) (k : Int)
    (hk : 0 ≤ k) :
    conversationHistorySync d turns k =
      .ok (((answeredChron turns).reverse.take k.toNat).reverse.map historyItemSync) := by
  unfold conversationHistorySync previousQuestionsQuery sqlLimit
  rw [if_neg (not_lt.mpr hk)]
  rfl

/-- A concatenation whose left part is a non-empty string is non-empty. -/
theorem append_ne_empty_of_left (a b : String) (ha : a.data ≠ []) :
    a ++ b ≠ "" := by
  obtain ⟨la⟩ := a
  obtain ⟨lb⟩ := b
  intro h
  have hd : la ++ lb = [] := congrArg String.data h
  exact ha (List.append_eq_nil.mp hd).1

/--
C7: the context string sent to any model call is a deterministic
prefix-cut to at most 10,000 characters: `truncateContext` (the embedding
of `context[:10000]`, applied by both `answer_question` and
`answer_question_stream`) always returns a prefix of its input of length
at most 10,000; inputs of length at most 10,000 pass through unchanged;
longer inputs are cut to exactly 10,000 characters; and the function is
idempotent.  As a total Lean function it never raises.
-/
theorem c7_truncation (s : String) :
    (truncateContext s).data <+: s.data ∧
    (truncateContext s).length ≤ 10000 ∧
    (s.length ≤ 10000 → truncateContext s = s) ∧
    (10000 < s.length → (truncateContext s).length = 10000) ∧
    truncateContext (truncateContext s) = truncateContext s := by
  obtain ⟨d⟩ := s
  refine ⟨?_, ?_, ?_, ?_, ?_⟩
  · exact List.take_prefix _ _
  · show (d.take contextLimit).length ≤ 10000
    rw [List.length_take]
    exact Nat.min_le_left _ _
  · intro h
    have h' : d.length ≤ contextLimit := h
    show String.mk (d.take contextLimit) = ⟨d⟩
    rw [List.take_of_length_le h']
  · intro h
    show (d.take contextLimit).length = 10000
    rw [List.length_take]
    exact Nat.min_eq_left (Nat.le_of_lt h)
  · show String.mk ((d.take contextLimit).take contextLimit) = ⟨d.take contextLimit⟩
    rw [List.take_take, Nat.min_self]

/--
C7 witness: a context below the limit passes through unchanged; a context
of 10,001 characters is cut to exactly 10,000.
-/
theorem c7_witness :
    truncateContext shortCtx = shortCtx ∧
    (truncateContext longCtx).length = 10000 :=
  ⟨(c7_truncation shortCtx).2.2.1 (by decide),
   (c7_truncation longCtx).2.2.2.1 (by
     show 10000 < (List.replicate 10001 'a').length
     rw [List.length_replicate]
     omega)⟩

/--
C10: against the claim, the question endpoints use `Question` fields that
the `Question` ORM model does not declare: the streaming history
construction reads `chart_data`, and the visualization-save endpoint
passes `chart_data` and `chart_type` to the `Question` constructor, none
of which are declared columns of the model — so those operations are not
total over declared-field access (reading an undeclared attribute of an
ORM instance raises `AttributeError`, and an undeclared constructor
keyword raises `TypeError`).
-/
theorem c10_undeclared_fields :
    ("chart_data" ∈ streamHistoryFieldsRead ∧
      "chart_data" ∉ questionDeclaredFields) ∧
    ("chart_type" ∈ visualizeFieldsWritten ∧
      "chart_type" ∉ questionDeclaredFields) := by
  decide

/--
C5: for any session and any positive `history_limit` `k`, the history
construction of the question endpoints succeeds and returns exactly
`min(N, k)` items, where `N` is the number of answered turns; the
underlying turns are a suffix of the chronological answered-turn list
(hence oldest-first order), and every turn included has a non-null
answer.
-/
theorem c5_history_bound (d : Dialect) (turns : List Turn) (k : Int)
    (hk : 0 < k) :
    ∃ l : List Turn,
      gatherTurnsChron d turns k = .ok l ∧
      conversationHistorySync d turns k = .ok (l.map historyItemSync) ∧
      l.length = min (answeredChron turns).length k.toNat ∧
      l <:+ answeredChron turns ∧
      ∀ t ∈ l, t.answer_text.isSome = true := by
  refine ⟨((answeredChron turns).reverse.take k.toNat).reverse, ?_, ?_, ?_, ?_, ?_⟩
  · unfold gatherTurnsChron previousQuestionsQuery sqlLimit
    rw [if_neg (not_lt.mpr (le_of_lt hk))]
    rfl
  · unfold conversationHistorySync previousQuestionsQuery sqlLimit
    rw [if_neg (not_lt.mpr (le_of_lt hk))]
    rfl
  · rw [List.length_reverse, List.length_take, List.length_reverse, Nat.min_comm]
  · have h := List.take_prefix k.toNat (answeredChron turns).reverse
    have h2 := List.reverse_suffix.mpr h
    rwa [List.reverse_reverse] at h2
  · intro t ht
    rw [List.mem_reverse] at ht
    have h1 := List.mem_of_mem_take ht
    rw [List.mem_reverse] at h1
    exact (List.mem_filter.mp h1).2

/--
C5 witness: on a session with two answered turns and one unanswered turn,
limit 2 returns exactly the two answered turns oldest-first.
-/
theorem c5_witness :
    ∃ l : List Turn,
      gatherTurnsChron .sqlite [tAns1, tUnans, tAns2] 2 = .ok l ∧
      conversationHistorySync .sqlite [tAns1, tUnans, tAns2] 2 =
        .ok (l.map historyItemSync) ∧
      l.length = min (answeredChron [tAns1, tUnans, tAns2]).length (2 : Int).toNat ∧
      l <:+ answeredChron [tAns1, tUnans, tAns2] ∧
      ∀ t ∈ l, t.answer_text.isSome = true :=
  c5_history_bound .sqlite [tAns1, tUnans, tAns2] 2 (by decide)

/--
C8 counterexample: the claim fails for negative limits.  On a session
with one answered turn and `history_limit = -1`, the SQLite dialect
returns the (unbounded) full answered-turn list, not the empty sequence,
and the PostgreSQL dialect raises — the code forwards the negative limit
to the database unchecked.
-/
theorem c8_counterexample :
    gatherTurnsChron .sqlite [tAns1] (-1) = .ok [tAns1] ∧
    gatherTurnsChron .postgres [tAns1] (-1) = .error "LIMIT must not be negative" ∧
    (Except.ok [tAns1] : Except String (List Turn)) ≠ .ok [] := by
  refine ⟨rfl, rfl, by decide⟩

/--
C8 amended: `history_limit = 0` does behave as "no history" (empty
sequence, no error); but a strictly negative limit is passed through to
the database, where SQLite returns every answered turn (an unbounded
query) and PostgreSQL raises an error.
-/
theorem c8_amended (d : Dialect) (turns : List Turn) (k : Int) (hk : k < 0) :
    gatherTurnsChron d turns 0 = .ok [] ∧
    gatherTurnsChron .sqlite turns k = .ok (answeredChron turns) ∧
    ∃ e, gatherTurnsChron .postgres turns k = .error e := by
  refine ⟨?_, ?_, ?_⟩
  · unfold gatherTurnsChron previousQuestionsQuery sqlLimit
    rw [if_neg (lt_irrefl 0)]
    simp [Except.map]
  · unfold gatherTurnsChron previousQuestionsQuery sqlLimit
    rw [if_pos hk]
    simp [Except.map]
  · refine ⟨"LIMIT must not be negative", ?_⟩
    unfold gatherTurnsChron previousQuestionsQuery sqlLimit
    rw [if_pos hk]
    rfl

/--
C8 witness for the amended claim at limit `-2` on a one-turn session.
-/
theorem c8_witness :
    gatherTurnsChron .postgres [tAns1] 0 = .ok [] ∧
    gatherTurnsChron .sqlite [tAns1] (-2) = .ok (answeredChron [tAns1]) ∧
    ∃ e, gatherTurnsChron .postgres [tAns1] (-2) = .error e :=
  c8_amended .postgres [tAns1] (-2) (by decide)

/--
C6 counterexample: the claim fails on the synchronous path.  For a prior
answered turn carrying a chart payload, the synchronous history presents
the bare textual answer, not the answer concatenated with the serialized
chart payload (which is what the streaming history presents).
-/
theorem c6_counterexample :
    conversationHistorySync .sqlite [tChart] 5 =
      .ok [{ question := "Q", answer := "A" }] ∧
    conversationHistoryStream .sqlite [tChart] 5 =
      .ok [{ question := "Q", answer := "A: [1, 2]" }] ∧
    ({ question := "Q", answer := "A" } : HistoryItem) ≠
      { question := "Q", answer := "A: [1, 2]" } := by
  refine ⟨rfl, rfl, by decide⟩

/--
C6 amended: for every prior turn included in conversation history whose
chart data is present, the answer text presented to the model is the
textual answer of the turn concatenated with the serialized chart payload on
the streaming path only; the synchronous path presents the bare textual
answer.
-/
theorem c6_amended (t : Turn) (a c : String) (ha : t.answer_text = some a)
    (hc : t.chart_data = some c) (hcne : c ≠ "") :
    historyItemStream t = { question := t.question_text, answer := a ++ ": " ++ c } ∧
    historyItemSync t = { question := t.question_text, answer := a } := by
  constructor
  · unfold historyItemStream chartFalsy
    rw [hc, ha]
    simp [hcne]
  · unfold historyItemSync
    rw [ha]
    rfl

/--
C6 witness for the amended claim at the chart-carrying turn `tChart`.
-/
theorem c6_witness :
    historyItemStream tChart =
      { question := tChart.question_text, answer := "A" ++ ": " ++ "[1, 2]" } ∧
    historyItemSync tChart =
      { question := tChart.question_text, answer := "A" } :=
  c6_amended tChart "A" "[1, 2]" rfl rfl (by decide)

/--
C1: for every streaming request, the answer of the single Turn persisted
after the fragment sequence ends equals the concatenation of every
fragment yielded to the caller — for every provider stream behavior,
success and mid-stream failure alike.  In the failure case the fragments
delivered are exactly the partial fragments already sent followed by the
appended error fragment (`answer_question_stream` catches the provider
fault and yields its fallback fragment), so the persisted text is the
concatenation of partial fragments plus error fragment.
-/
theorem c1_stream_accumulation
    (gwStream : String → String → List HistoryItem → GenOutcome)
    (files : List String) (hist : List HistoryItem) (q : String) :
    (generate_stream gwStream files hist q true).persisted =
      [⟨q, some (String.join ((generate_stream gwStream files hist q true).yielded)),
        none⟩] ∧
    (∀ fs e,
      gwStream (effectiveCall files q).1
        (truncateContext (effectiveCall files q).2) hist = .raises fs e →
      (generate_stream gwStream files hist q true).yielded =
        fs ++ [innerStreamFallback]) := by
  constructor
  · unfold generate_stream answer_question_stream
    cases h : gwStream (effectiveCall files q).1
        (truncateContext (effectiveCall files q).2) hist with
    | yields fs => simp [h, outerConsume]
    | raises fs e => simp [h, outerConsume]
  · intro fs e h
    unfold generate_stream answer_question_stream
    simp [h, outerConsume]

/--
C1 witness: a provider stream that fails after two fragments still yields
partial fragments plus the error fragment, and persists their
concatenation.
-/
theorem c1_witness :
    (generate_stream gwStreamFail ["doc"] [] "What?" true).persisted =
      [⟨"What?",
        some (String.join ((generate_stream gwStreamFail ["doc"] [] "What?" true).yielded)),
        none⟩] ∧
    (generate_stream gwStreamFail ["doc"] [] "What?" true).yielded =
      ["He", "llo "] ++ [innerStreamFallback] :=
  ⟨(c1_stream_accumulation gwStreamFail ["doc"] [] "What?").1,
   (c1_stream_accumulation gwStreamFail ["doc"] [] "What?").2 ["He", "llo "] "boom" rfl⟩

/--
C2: for every streaming request, after the fragment sequence is exhausted
exactly one persistence attempt of one Turn is made; when the commit
succeeds the single written Turn carries the full accumulated text as its
answer; and whether or not the commit succeeds, nothing is re-raised into
the already-delivered response stream.
-/
theorem c2_persist_once
    (gwStream : String → String → List HistoryItem → GenOutcome)
    (files : List String) (hist : List HistoryItem) (q : String)
    (commitOk : Bool) :
    (generate_stream gwStream files hist q commitOk).persistAttempts = 1 ∧
    (commitOk = true →
      (generate_stream gwStream files hist q commitOk).persisted =
        [⟨q, some (generate_stream gwStream files hist q commitOk).acc, none⟩]) ∧
    (generate_stream gwStream files hist q commitOk).raisedToCaller = false := by
  refine ⟨rfl, ?_, rfl⟩
  intro h
  subst h
  rfl

/--
C2 witness: one successful streaming run persists exactly the accumulated
answer.
-/
theorem c2_witness :
    (generate_stream gwStreamOk ["doc"] [] "Hi" true).persisted =
      [⟨"Hi", some (generate_stream gwStreamOk ["doc"] [] "Hi" true).acc, none⟩] :=
  (c2_persist_once gwStreamOk ["doc"] [] "Hi" true).2.1 rfl

set_option maxRecDepth 8192 in
/--
C3 counterexample: the claim fails on zero-document sessions.  When the
Gateway raises with detail `boom` on a session with no documents, the
persisted answer is the fixed guidance fallback, which does not contain
the failure detail.
-/
theorem c3_counterexample :
    (ask_question gwBoom .sqlite [] [] none "Hi").map SyncRun.persisted =
      .ok [⟨"Hi", some generalKnowledgeFallback, none⟩] ∧
    (ask_question gwBoom .sqlite [] [] none "Hi").map SyncRun.sources =
      .ok (.vlist []) ∧
    ¬ "boom".data <:+: generalKnowledgeFallback.data := by
  refine ⟨rfl, rfl, by decide⟩

/--
C3 amended: for every synchronous answer request in which the Gateway
call `complete` raises, the operation persists exactly one new Turn with
non-null, non-empty answer text, returns empty sources, and does not
propagate the failure as a request error; the answer text contains the
failure detail only when the session has documents (on zero-document
sessions it is a fixed guidance message instead).
-/
theorem c3_amended (gw : Gateway) (e : String) (d : Dialect)
    (files : List String) (turns : List Turn) (lim : Option Int) (q : String)
    (hgw : ∀ a b c, gw a b c = .error e) (hk : 0 ≤ lim.getD 5) :
    ∃ run, ask_question gw d files turns lim q = .ok run ∧
      (∃ a, run.persisted = [⟨q, some a, none⟩] ∧ a ≠ "") ∧
      run.sources = .vlist [] ∧
      (files ≠ [] → run.answer = errAnswerStem ++ e) := by
  have hh := conversationHistorySync_ok d turns (lim.getD 5) hk
  by_cases hf : files = []
  · subst hf
    have hrun : ask_question gw d [] turns lim q =
        .ok { answer := generalKnowledgeFallback
              sources := .vlist []
              conversation_history :=
                ((answeredChron turns).reverse.take (lim.getD 5).toNat).reverse.map
                  historyItemSync
              persisted := [⟨q, some generalKnowledgeFallback, none⟩] } := by
      unfold ask_question
      rw [hh]
      simp [hgw]
    exact ⟨_, hrun, ⟨generalKnowledgeFallback, rfl, by decide⟩, rfl,
      fun hne => absurd rfl hne⟩
  · have hf' : files.isEmpty = false := by
      cases files with
      | nil => exact absurd rfl hf
      | cons a l => rfl
    have hrun : ask_question gw d files turns lim q =
        .ok { answer := errAnswerStem ++ e
              sources := .vlist []
              conversation_history :=
                ((answeredChron turns).reverse.take (lim.getD 5).toNat).reverse.map
                  historyItemSync
              persisted := [⟨q, some (errAnswerStem ++ e), none⟩] } := by
      unfold ask_question normalProcessing
      rw [hh]
      simp [hf', hgw]
    exact ⟨_, hrun,
      ⟨errAnswerStem ++ e, rfl, append_ne_empty_of_left _ _ (by decide)⟩, rfl,
      fun _ => rfl⟩

/--
C3 witness for the amended claim: a one-document session whose Gateway
always raises with detail `boom`.
-/
theorem c3_witness :
    ∃ run, ask_question gwBoom .sqlite ["doc"] [] none "Hi" = .ok run ∧
      (∃ a, run.persisted = [⟨"Hi", some a, none⟩] ∧ a ≠ "") ∧
      run.sources = .vlist [] ∧
      (["doc"] ≠ ([] : List String) → run.answer = errAnswerStem ++ "boom") :=
  c3_amended gwBoom "boom" .sqlite ["doc"] [] none "Hi" (fun _ _ _ => rfl) (by decide)

set_option maxRecDepth 8192 in
/--
C9 counterexample: the claim fails on zero-document sessions.  When the
Gateway returns the truthy non-list sources value `"src"` on a session
with no documents, the response carries the raw scalar, not a one-element
list of its string form — the defensive coercion runs only on the
documents branch.
-/
theorem c9_counterexample :
    (ask_question gwScalar .sqlite [] [] none "Hi").map SyncRun.sources =
      .ok (.vstr "src") ∧
    PyVal.vstr "src" ≠ .vlist ["src"] := by
  refine ⟨rfl, by decide⟩

/--
C9 amended: for every synchronous answer request on a session with at
least one document, if the Gateway call `complete` yields a non-list sources
value, the returned sources is `[]` when that value is falsy and a
one-element list containing its string form when it is truthy; the
returned sources is always a list.
-/
theorem c9_amended (gw : Gateway) (d : Dialect) (files : List String)
    (turns : List Turn) (lim : Option Int) (q answerText : String) (v : PyVal)
    (hfiles : files ≠ []) (hk : 0 ≤ lim.getD 5)
    (hgw : ∀ a b c, gw a b c = .ok (answerText, v)) (hv : v.isList = false) :
    ∃ run, ask_question gw d files turns lim q = .ok run ∧
      (v.truthy = false → run.sources = .vlist []) ∧
      (v.truthy = true → run.sources = .vlist [v.pyStr]) ∧
      ∃ xs, run.sources = .vlist xs := by
  have hh := conversationHistorySync_ok d turns (lim.getD 5) hk
  have hf' : files.isEmpty = false := by
    cases files with
    | nil => exact absurd rfl hfiles
    | cons a l => rfl
  have hrun : ask_question gw d files turns lim q =
      .ok { answer := answerText
            sources := normalizeSources v
            conversation_history :=
              ((answeredChron turns).reverse.take (lim.getD 5).toNat).reverse.map
                historyItemSync
            persisted := [⟨q, some answerText, none⟩] } := by
    unfold ask_question normalProcessing
    rw [hh]
    simp [hf', hgw]
  refine ⟨_, hrun, ?_, ?_, ?_⟩
  · intro ht
    simp [normalizeSources, hv, ht]
  · intro ht
    simp [normalizeSources, hv, ht]
  · cases ht : v.truthy
    · exact ⟨[], by simp [normalizeSources, hv, ht]⟩
    · exact ⟨[v.pyStr], by simp [normalizeSources, hv, ht]⟩

/--
C9 witness for the amended claim: a one-document session whose Gateway
returns the truthy integer `7` as sources yields the one-element list of
its string form.
-/
theorem c9_witness :
    ∃ run, ask_question gwIntSources .sqlite ["doc"] [] none "Hi" = .ok run ∧
      ((PyVal.vint 7).truthy = false → run.sources = .vlist []) ∧
      ((PyVal.vint 7).truthy = true → run.sources = .vlist [(PyVal.vint 7).pyStr]) ∧
      ∃ xs, run.sources = .vlist xs :=
  c9_amended gwIntSources .sqlite ["doc"] [] none "Hi" "ans" (.vint 7)
    (by decide) (by decide) (fun _ _ _ => rfl) rfl

/--
C4: the claim fails on the code — the synchronous path never applies the
pasted-text reclassification.  `ask_question` returns early for
zero-document sessions, and its reclassification block is guarded by
`not file_contents and contains_pasted_text`, which can no longer hold
there.  Evaluated with an argument-echoing Gateway at a zero-document
session and a 139-character question containing `?` with more than 50
characters after it: the Gateway receives the original unsplit question
and the empty context (and the persisted Turn carries the original
question), although the reclassification — applied on the streaming
path, and required here by the claim — would have produced a different
effective question and a non-empty ad-hoc context.
-/
theorem c4_code_bug :
    (ask_question gwEcho .sqlite [] [] none qBig).map SyncRun.answer =
      .ok ("Q=" ++ qBig ++ ";C=") ∧
    (ask_question gwEcho .sqlite [] [] none qBig).map SyncRun.persisted =
      .ok [⟨qBig, some ("Q=" ++ qBig ++ ";C="), none⟩] ∧
    reclassifyPasted qBig =
      ("Is this a long question?",
       "The remainder of this message is pasted content that continues for quite a while to exceed both thresholds easily.") ∧
    "Is this a long question?" ≠ qBig ∧
    effectiveCall [] qBig = reclassifyPasted qBig := by
  refine ⟨by decide, by decide, by decide, by decide, by decide⟩
